import Mathlib

/-!
Shallow embedding of the dBet backend (`src/index.js`): the resolution
relay (`POST /resolve-market`, `GET /get-resolution/:marketAddress`,
`apiKeyMiddleware`) and the dynamic-metadata renderer
(`GET /metadata/:marketAddress/:tokenId`).

The resolution store in the source is a plain JavaScript object literal
(`const resolutionStore = {}`), accessed with bracket notation on keys
produced by `String.prototype.toLowerCase`.  Property access on such an
object falls through to `Object.prototype` when no own property exists,
and assignment to the key `"__proto__"` invokes the inherited accessor
of `Object.prototype` (which, for a non-object value, changes nothing
and creates no own property).  The embedding models these semantics
explicitly, because the handlers feed arbitrary request strings into the
object as keys.
-/

set_option autoImplicit false

namespace DBet

/-- JavaScript runtime values, restricted to the shapes that can reach the
resolution store in this program: `undefined` is `undefined`; `num`, `str` and
`jbool` are the JSON scalars a parsed request body can hold (integer
numbers suffice for the claims under study); `protoObj` is the
`Object.prototype` object itself, as produced by reading the inherited
`__proto__` accessor; `builtinFun f` is an inherited built-in method of
`Object.prototype` (for example `constructor`), as produced by reading a
key that is a prototype member name. -/
inductive JSValue where
  | undefined
  | num (n : Int)
  | str (s : String)
  | jbool (b : Bool)
  | protoObj
  | builtinFun (f : String)
deriving DecidableEq, Repr

/-- JavaScript truthiness for the values of `JSValue`, as used by
`if (!marketAddress)` in the `POST /resolve-market` handler: `undefined`,
`0` and the empty string are falsy; objects and functions are truthy. -/
def truthy : JSValue → Bool
  | .undefined => false
  | .num n => if n = 0 then false else true
  | .str s => if s = "" then false else true
  | .jbool b => b
  | .protoObj => true
  | .builtinFun _ => true

/-- Model of `String.prototype.toLowerCase` on the ASCII strings this
program uses as store keys (market addresses are hexadecimal strings):
each character in the range `A`-`Z` is mapped to its lowercase form. -/
def jsToLowerCase (s : String) : String := String.mk (s.data.map Char.toLower)

/-- The property names of the built-in methods and data members inherited
from `Object.prototype` by every plain object literal (the `__proto__`
accessor is handled separately because reading and writing it goes
through getter and setter functions). -/
def objectProtoProps : List String :=
  ["constructor", "hasOwnProperty", "isPrototypeOf", "propertyIsEnumerable",
   "toLocaleString", "toString", "valueOf",
   "__defineGetter__", "__defineSetter__", "__lookupGetter__", "__lookupSetter__"]

/-- The own properties of the `resolutionStore` object, in insertion
order.  The object prototype stays `Object.prototype` throughout the
program, since only non-object values are ever assigned. -/
abbrev Store := List (String × JSValue)

/-- Lookup among the own properties of the store object. -/
def getOwn : Store → String → Option JSValue
  | [], _ => none
  | (k, v) :: rest, key => if k = key then some v else getOwn rest key

/-- `resolutionStore[key]`: an own property if present, otherwise the
inherited `Object.prototype` members (`__proto__` reads back the
prototype object; the built-in method names read back functions), and
`undefined` only when the key is genuinely absent from both. -/
def storeGet (s : Store) (key : String) : JSValue :=
  match getOwn s key with
  | some v => v
  | none =>
    if key = "__proto__" then .protoObj
    else if key ∈ objectProtoProps then .builtinFun key
    else .undefined

/-- Overwrite-or-append among the own properties. -/
def setOwn : Store → String → JSValue → Store
  | [], key, v => [(key, v)]
  | (k, w) :: rest, key, v =>
    if k = key then (key, v) :: rest else (k, w) :: setOwn rest key v

/-- `resolutionStore[key] = v`: for every ordinary key this creates or
overwrites an own property; for the key `"__proto__"` the assignment
invokes the inherited setter of `Object.prototype`, which for a
non-object value does nothing at all — no own property is created and
the prototype is unchanged. -/
def storeSet (s : Store) (key : String) (v : JSValue) : Store :=
  if key = "__proto__" then s else setOwn s key v

/-- Outcome of the `apiKeyMiddleware` check on `POST /resolve-market`:
`true` means the request passes on to the handler.  The source rejects
with 401 when `!providedApiKey || providedApiKey != API_KEY`: a missing
or empty `x-api-key` header fails, and otherwise the header must be
loosely equal to `process.env.API_KEY` (a string when configured,
`undefined` when not; a string is never loosely equal to `undefined`). -/
def apiKeyPasses (apiKey provided : Option String) : Bool :=
  match provided with
  | none => false
  | some p =>
    if p = "" then false
    else
      match apiKey with
      | some k => p = k
      | none => false

/-- HTTP outcome of `POST /resolve-market`: 401 from the middleware, 400
from the input validation, 500 when the handler throws a `TypeError`
(calling `.toLowerCase()` on a truthy non-string body field), or the 200
echo `{market, winner}` of the stored pair. -/
inductive ResolveResult where
  | unauthorized
  | invalidInput
  | typeError
  | ok (market : String) (winner : JSValue)
deriving DecidableEq, Repr

/-- Result and post-state of one `POST /resolve-market` request. -/
structure ResolveOutcome where
  result : ResolveResult
  store : Store
deriving DecidableEq, Repr

/-- The `POST /resolve-market` route: `apiKeyMiddleware` first, then the
validation `if (!marketAddress || winningOptionIndex === undefined)`
rejecting with 400, then the write
`resolutionStore[marketAddress.toLowerCase()] = winningOptionIndex`
and the 200 echo response. -/
def resolveMarket (apiKey provided : Option String)
    (marketAddress winningOptionIndex : JSValue) (s : Store) : ResolveOutcome :=
  if apiKeyPasses apiKey provided = false then ⟨.unauthorized, s⟩
  else if truthy marketAddress = false ∨ winningOptionIndex = .undefined then
    ⟨.invalidInput, s⟩
  else
    match marketAddress with
    | .str a => ⟨.ok a winningOptionIndex, storeSet s (jsToLowerCase a) winningOptionIndex⟩
    | _ => ⟨.typeError, s⟩

/-- HTTP outcome of `GET /get-resolution/:marketAddress`: 404, or 200
with the JSON body `{winningOptionIndex}`. -/
inductive GetResolutionResult where
  | notFound
  | ok (winningOptionIndex : JSValue)
deriving DecidableEq, Repr

/-- The `GET /get-resolution/:marketAddress` route: look up
`resolutionStore[marketAddress.toLowerCase()]`, answer 404 exactly when
the looked-up value is `undefined`, and otherwise answer 200 with the
value. -/
def getResolution (s : Store) (marketAddress : String) : GetResolutionResult :=
  let w := storeGet s (jsToLowerCase marketAddress)
  if w = .undefined then .notFound else .ok w

/-- The values the `GET /metadata/:marketAddress/:tokenId` handler reads
from the chain for one request: the two option pools and the total pool
of the `PredictionMarket` contract (uint256 values, modelled as `Nat`),
its resolved flag and winning option index, and the `tokenOption` view
of the associated `PositionNFT` contract mapping a token id to the
option index that position backs. -/
structure ChainState where
  option0Pool : Nat
  option1Pool : Nat
  totalPool : Nat
  isResolved : Bool
  winningOptionIndex : Nat
  tokenOption : Nat → Nat

/-- The named entries of the `imageUrls` table in the handler.  Note that
the `initial` and `slight_advantage` entries hold the same IPFS URL in
the source. -/
inductive Tier where
  | initial
  | slight_advantage
  | huge_advantage
  | win
  | slight_disadvantage
  | huge_disadvantage
  | loss
deriving DecidableEq, Repr

/-- The `imageUrls` table of the handler, verbatim from the source. -/
def imageUrls : Tier → String
  | .initial => "ipfs://bafybeihnupuikrn6zwq7aozfmtw7eppqf4hhrasyo2lpari7arz27i6pqq"
  | .slight_advantage => "ipfs://bafybeihnupuikrn6zwq7aozfmtw7eppqf4hhrasyo2lpari7arz27i6pqq"
  | .huge_advantage => "ipfs://bafybeiecjtvd4xxlyjlr2uagy2ermnkfyfhgbdzhqrp4coflmwef33o6pm"
  | .win => "ipfs://bafybeigeswyw24exdy5r4hvx2zg3yvfprcazhja5aowqwlvejeviizoomm"
  | .slight_disadvantage => "ipfs://bafybeihyqd3sltgm72vcn2mbd2tcm64qqxtmnm232a5rujnonox7j4w77q"
  | .huge_disadvantage => "ipfs://bafybeifubqeukm7q5fd5wxulstptokvbrq3jmdho6em5rh6kk4vi6mod2y"
  | .loss => "ipfs://bafybeihiaeifcob2wsqc5tqg6ae3voc5wzfuhp7pf2ln56t3njibbjhgkq"

/-- `userOptionIndex === 0n ? option0.totalPool : option1.totalPool`:
the pool of the option the position backs (every index other than `0`
selects option 1 in this binary-market handler). -/
def userOptionPool (c : ChainState) (userOptionIndex : Nat) : Nat :=
  if userOptionIndex = 0 then c.option0Pool else c.option1Pool

/-- The odds computation of the handler: `odds` starts at `50` and is
replaced by `Number((userOptionPool * 100n) / totalPool)` when
`totalPool > 0`.  The multiplication and the truncating division happen
on BigInt values, modelled exactly by `Nat` arithmetic; the final
`Number` conversion is exact whenever the quotient is at most `2 ^ 53`,
in particular whenever `userOptionPool ≤ totalPool`. -/
def computeOdds (c : ChainState) (userOptionIndex : Nat) : Nat :=
  if 0 < c.totalPool then userOptionPool c userOptionIndex * 100 / c.totalPool else 50

/-- The unresolved branch of the image selection, first match wins:
`odds > 75`, then `odds > 55`, then `odds < 25`, then `odds < 45`, and
`initial` when no rule matches. -/
def unresolvedImageTier (odds : Nat) : Tier :=
  if 75 < odds then .huge_advantage
  else if 55 < odds then .slight_advantage
  else if odds < 25 then .huge_disadvantage
  else if odds < 45 then .slight_disadvantage
  else .initial

/-- The `resultAttribute.value` field: `"Pending"` initially, replaced on
a resolved market by `"Won"` when `winningIndex === userOptionIndex`
(strict equality of BigInt values, modelled by equality on `Nat`) and by
`"Lost"` otherwise. -/
def resultAttributeValue (isResolved : Bool) (winningIndex userOptionIndex : Nat) : String :=
  if isResolved then
    (if winningIndex = userOptionIndex then "Won" else "Lost")
  else "Pending"

/-- One `trait_type`/`value` entry of the metadata attribute list. -/
structure Attr where
  trait_type : String
  value : String
deriving DecidableEq, Repr

/-- The metadata JSON document assembled by the handler. -/
structure Metadata where
  name : String
  description : String
  image : String
  attributes : List Attr
deriving DecidableEq, Repr

/-- `odds.toFixed(2)` for the integer-valued `odds` this handler
computes: the decimal digits of the integer followed by `.00`. -/
def toFixed2 (n : Nat) : String := toString n ++ ".00"

/-- The body of `GET /metadata/:marketAddress/:tokenId` after the chain
reads have produced `c`: compute the position option via `tokenOption`,
the odds from the pool of that option, then pick the image and the
`Result` attribute (win/loss branch when resolved, the odds-tier branch
otherwise) and assemble the metadata document. -/
def renderMetadata (c : ChainState) (tokenId : Nat) : Metadata :=
  let userOptionIndex := c.tokenOption tokenId
  let odds := computeOdds c userOptionIndex
  let currentImage : Tier :=
    if c.isResolved then
      (if c.winningOptionIndex = userOptionIndex then .win else .loss)
    else unresolvedImageTier odds
  { name := "Prediction Market Position #" ++ toString tokenId
    description := "A dynamic NFT representing a position in a dBet prediction market."
    image := imageUrls currentImage
    attributes :=
      [⟨"Your Option Odds", toFixed2 odds ++ "%"⟩,
       ⟨"Result", resultAttributeValue c.isResolved c.winningOptionIndex userOptionIndex⟩] }

/-- The full `GET /metadata/:marketAddress/:tokenId` request handler as
a function of the whole server state: the `resolutionStore` contents are
in scope for this route in the source, so the handler receives them
here, and the rendered document is produced from the chain reads
alone. -/
def metadataHandler (s : Store) (c : ChainState) (tokenId : Nat) : Metadata :=
  renderMetadata c tokenId

/-- The end-to-end scenario market of the specification: option 0 pool
30, option 1 pool 70, total pool 100, unresolved, and every position
token backs option 1. -/
def scenario70 : ChainState :=
  { option0Pool := 30, option1Pool := 70, totalPool := 100,
    isResolved := false, winningOptionIndex := 0, tokenOption := fun _ => 1 }

/-- A resolved variant of the scenario market: option 1 won, and every
position token backs option 1. -/
def scenarioResolved : ChainState :=
  { option0Pool := 30, option1Pool := 70, totalPool := 100,
    isResolved := true, winningOptionIndex := 1, tokenOption := fun _ => 1 }

/-- A market with an empty total pool, for the division-by-zero case. -/
def scenarioEmpty : ChainState :=
  { option0Pool := 0, option1Pool := 0, totalPool := 0,
    isResolved := false, winningOptionIndex := 0, tokenOption := fun _ => 0 }

/-- C1: the claim states that for every market address string, fetching
after an authorized store of index `i` returns exactly `i` with 200.
The code violates this at the address `"__proto__"`: the store request
is answered with the 200 echo, but the assignment
`resolutionStore["__proto__"] = 5` goes to the inherited setter of
`Object.prototype` and writes nothing (the store keeps no own
properties), and the subsequent fetch reads the inherited `__proto__`
getter, answering 200 with `Object.prototype` instead of the stored
index `5`. -/
theorem c1_proto_write_dropped :
    (resolveMarket (some "secret") (some "secret") (.str "__proto__") (.num 5) []).result
      = .ok "__proto__" (.num 5) ∧
    (resolveMarket (some "secret") (some "secret") (.str "__proto__") (.num 5) []).store = [] ∧
    getResolution
      (resolveMarket (some "secret") (some "secret") (.str "__proto__") (.num 5) []).store
      "__proto__" = .ok .protoObj := by
  decide

/-- C3: the claim states that fetching the resolution of a never-stored
address answers 404.  The code violates this at the address
`"constructor"` (already lowercase): on a store with no own properties,
`resolutionStore["constructor"]` yields the inherited
`Object.prototype.constructor` function, which is not `undefined`, so
the route answers 200 instead of 404.  The third conjunct records the
part of the claim the code does satisfy: a stored winning index `0` is
returned as a normal 200 result, distinguishable from this leak. -/
theorem c3_constructor_leak :
    getResolution [] "constructor" = .ok (.builtinFun "constructor") ∧
    getResolution [] "constructor" ≠ .notFound ∧
    getResolution (storeSet [] "0xabc" (.num 0)) "0xABC" = .ok (.num 0) := by
  decide

/-- C2 counterexample: the claim states that the boundary percentages 25
and 75 select the `initial` tier because no rule matches there.  In the
code the rules are tried in order, so at 25 the later rule `odds < 45`
matches and selects `slight_disadvantage`, and at 75 the rule
`odds > 55` matches and selects `slight_advantage`; neither boundary
yields `initial`. -/
theorem c2_boundary_refuted :
    unresolvedImageTier 25 = .slight_disadvantage ∧
    unresolvedImageTier 75 = .slight_advantage ∧
    unresolvedImageTier 25 ≠ .initial ∧
    unresolvedImageTier 75 ≠ .initial := by
  decide

/-- C2 (amended): the unresolved display tier is selected first-match
over the percentage `p`: above 75 `huge_advantage`; from 56 to 75
`slight_advantage` (so `p = 75` is `slight_advantage`, not `initial`);
below 25 `huge_disadvantage`; from 25 to 44 `slight_disadvantage` (so
`p = 25` is `slight_disadvantage`, not `initial`); and `initial` exactly
on the inclusive 45-to-55 band, which contains `p = 50`. -/
theorem c2_tier_bands (p : Nat) :
    (75 < p → unresolvedImageTier p = .huge_advantage) ∧
    (55 < p → p ≤ 75 → unresolvedImageTier p = .slight_advantage) ∧
    (p < 25 → unresolvedImageTier p = .huge_disadvantage) ∧
    (25 ≤ p → p < 45 → unresolvedImageTier p = .slight_disadvantage) ∧
    (45 ≤ p → p ≤ 55 → unresolvedImageTier p = .initial) := by
  refine ⟨fun h1 => ?_, fun h1 h2 => ?_, fun h1 => ?_, fun h1 h2 => ?_, fun h1 h2 => ?_⟩
  · rw [unresolvedImageTier, if_pos h1]
  · rw [unresolvedImageTier, if_neg (by omega), if_pos h1]
  · rw [unresolvedImageTier, if_neg (by omega), if_neg (by omega), if_pos h1]
  · rw [unresolvedImageTier, if_neg (by omega), if_neg (by omega), if_neg (by omega),
      if_pos h2]
  · rw [unresolvedImageTier, if_neg (by omega), if_neg (by omega), if_neg (by omega),
      if_neg (by omega)]

/-- C2 witness: the amended tier selection evaluated at the concrete
percentages 76 and 50 named by the claim. -/
theorem c2_tier_bands_witness :
    unresolvedImageTier 76 = .huge_advantage ∧ unresolvedImageTier 50 = .initial :=
  ⟨(c2_tier_bands 76).1 (by decide),
   (c2_tier_bands 50).2.2.2.2 (by decide) (by decide)⟩

/-- C7 counterexample: the claim states that a request whose
`winningOptionIndex` is not a non-negative integer is rejected with 400.
The handler only tests `winningOptionIndex === undefined`, so with a
valid API key the index `-1` is accepted, stored, and echoed with
200. -/
theorem c7_negative_index_accepted :
    (resolveMarket (some "k") (some "k") (.str "0xabc") (.num (-1)) []).result
      = .ok "0xabc" (.num (-1)) ∧
    (resolveMarket (some "k") (some "k") (.str "0xabc") (.num (-1)) []).result
      ≠ .invalidInput ∧
    (resolveMarket (some "k") (some "k") (.str "0xabc") (.num (-1)) []).store
      = [("0xabc", .num (-1))] := by
  decide

/-- C7 (amended): with a configured key presented correctly, the
`POST /resolve-market` validation rejects with 400 exactly when the
`marketAddress` body field is falsy (absent, the empty string, the
number 0, or `false`) or the `winningOptionIndex` field is absent; any
defined index — negative or non-numeric included — together with a
non-empty address string is accepted with the 200 echo. -/
theorem c7_validation (k : String) (hk : k ≠ "") (ma wi : JSValue) (s : Store) :
    ((resolveMarket (some k) (some k) ma wi s).result = .invalidInput ↔
      (ma = .undefined ∨ ma = .num 0 ∨ ma = .str "" ∨ ma = .jbool false ∨ wi = .undefined)) ∧
    (∀ a : String, ma = .str a → a ≠ "" → wi ≠ .undefined →
      (resolveMarket (some k) (some k) ma wi s).result = .ok a wi) := by
  have hp : apiKeyPasses (some k) (some k) = true := by
    simp [apiKeyPasses, hk]
  constructor
  · by_cases hw : wi = JSValue.undefined
    · cases ma <;> simp [resolveMarket, hp, truthy, hw]
    · cases ma with
      | undefined => simp [resolveMarket, hp, truthy, hw]
      | num n =>
        by_cases hn : n = 0 <;> simp [resolveMarket, hp, truthy, hw, hn]
      | str a =>
        by_cases ha : a = "" <;> simp [resolveMarket, hp, truthy, hw, ha]
      | jbool b => cases b <;> simp [resolveMarket, hp, truthy, hw]
      | protoObj => simp [resolveMarket, hp, truthy, hw]
      | builtinFun f => simp [resolveMarket, hp, truthy, hw]
  · rintro a rfl ha hw
    simp [resolveMarket, hp, truthy, ha, hw]

/-- C7 witness: the amended validation applied to the concrete body
`{marketAddress: "0xabc", winningOptionIndex: -1}` with key `"k"`. -/
theorem c7_validation_witness :
    ((resolveMarket (some "k") (some "k") (.str "0xabc") (.num (-1)) []).result
        = .invalidInput ↔
      ((JSValue.str "0xabc") = .undefined ∨ (JSValue.str "0xabc") = .num 0 ∨
       (JSValue.str "0xabc") = .str "" ∨ (JSValue.str "0xabc") = .jbool false ∨
       (JSValue.num (-1)) = .undefined)) ∧
    (resolveMarket (some "k") (some "k") (.str "0xabc") (.num (-1)) []).result
      = .ok "0xabc" (.num (-1)) :=
  ⟨(c7_validation "k" (by decide) (.str "0xabc") (.num (-1)) []).1,
   (c7_validation "k" (by decide) (.str "0xabc") (.num (-1)) []).2 "0xabc" rfl
     (by decide) (by decide)⟩

/-- C8 counterexample: the claim states that when no shared secret is
configured, the protected endpoint is effectively open and no request is
rejected with 401.  In the code the middleware compares the header
against `process.env.API_KEY`, which is `undefined` when unset, and a
header string is never loosely equal to `undefined`, so this otherwise
well-formed request is rejected with 401. -/
theorem c8_no_key_still_rejects :
    (resolveMarket none (some "anything") (.str "0xabc") (.num 1) []).result
      = .unauthorized := by
  decide

/-- C8 (amended): a `POST /resolve-market` request is rejected with 401
exactly when its `x-api-key` header is missing, empty, or different from
the configured secret; and when no secret is configured at all, every
request is rejected with 401 — the endpoint is effectively closed, not
open. -/
theorem c8_auth (apiKey provided : Option String) (ma wi : JSValue) (s : Store) :
    ((resolveMarket apiKey provided ma wi s).result = .unauthorized ↔
      ¬ ∃ p, provided = some p ∧ p ≠ "" ∧ apiKey = some p) ∧
    (apiKey = none → (resolveMarket apiKey provided ma wi s).result = .unauthorized) := by
  have hchar : apiKeyPasses apiKey provided = true ↔
      ∃ p, provided = some p ∧ p ≠ "" ∧ apiKey = some p := by
    cases provided with
    | none => simp [apiKeyPasses]
    | some p =>
      by_cases hp : p = ""
      · simp [apiKeyPasses, hp]
      · cases apiKey with
        | none => simp [apiKeyPasses, hp]
        | some k =>
          by_cases hk : p = k
          · subst hk
            simp [apiKeyPasses, hp]
          · simp [apiKeyPasses, hp, hk]
            exact fun h => hk h.symm
  constructor
  · by_cases hpass : apiKeyPasses apiKey provided = true
    · rw [iff_false_right (by simpa using hchar.mp hpass)]
      unfold resolveMarket
      rw [if_neg (by simp [hpass])]
      split
      · simp
      · cases ma <;> simp
    · rw [iff_true_right (by simpa [hchar] using hpass)]
      unfold resolveMarket
      rw [if_pos (by simpa using hpass)]
  · intro hnone
    have hfail : apiKeyPasses apiKey provided = false := by
      subst hnone
      cases provided with
      | none => rfl
      | some p => by_cases hp : p = "" <;> simp [apiKeyPasses, hp]
    unfold resolveMarket
    rw [if_pos hfail]

/-- C8 witness: the amended characterization applied with no configured
secret and the header `"anything"`: the request is rejected with 401 and
no passing header exists. -/
theorem c8_auth_witness :
    ((resolveMarket none (some "anything") (.str "0xabc") (.num 1) []).result
        = .unauthorized ↔
      ¬ ∃ p, (some "anything" : Option String) = some p ∧ p ≠ "" ∧
        (none : Option String) = some p) ∧
    (resolveMarket none (some "anything") (.str "0xabc") (.num 1) []).result
      = .unauthorized :=
  ⟨(c8_auth none (some "anything") (.str "0xabc") (.num 1) []).1,
   (c8_auth none (some "anything") (.str "0xabc") (.num 1) []).2 rfl⟩

/-- C9: the metadata route never reads the resolution store: for any two
store contents and identical chain-read results, the rendered response
documents are identical, because `renderMetadata` consumes only the
chain reads — only the oracle callback path (`GET /get-resolution`)
consumes the stored record. -/
theorem c9_metadata_ignores_store (s1 s2 : Store) (c : ChainState) (tokenId : Nat) :
    metadataHandler s1 c tokenId = metadataHandler s2 c tokenId := rfl

/-- C10: every failing `POST /resolve-market` request — 401 from the API
key middleware or 400 from the input validation — leaves the resolution
store exactly as it was, and conversely the store changes only when the
request is answered with the 200 echo. -/
theorem c10_failed_write (apiKey provided : Option String) (ma wi : JSValue) (s : Store) :
    ((resolveMarket apiKey provided ma wi s).result = .unauthorized ∨
       (resolveMarket apiKey provided ma wi s).result = .invalidInput →
      (resolveMarket apiKey provided ma wi s).store = s) ∧
    ((resolveMarket apiKey provided ma wi s).store ≠ s →
      ∃ a v, (resolveMarket apiKey provided ma wi s).result = .ok a v) := by
  unfold resolveMarket
  split
  · simp
  · split
    · simp
    · cases ma <;> simp

/-- C10 witness: a request failing the key check (no header) leaves the
empty store empty, and a fully valid request that does change the store
is answered with the 200 echo. -/
theorem c10_failed_write_witness :
    (resolveMarket (some "k") none (.str "0xabc") (.num 1) []).store = [] ∧
    ∃ a v, (resolveMarket (some "k") (some "k") (.str "0xAbc") (.num 2) []).result
      = .ok a v :=
  ⟨(c10_failed_write (some "k") none (.str "0xabc") (.num 1) []).1 (Or.inl (by decide)),
   (c10_failed_write (some "k") (some "k") (.str "0xAbc") (.num 2) []).2 (by decide)⟩

/-- C4: the metadata document always carries the `Result` attribute with
the value computed by `resultAttributeValue`; on a resolved market that
value is `"Won"` exactly when the winning option index equals the option
index the position backs (compared by exact integer equality) and
`"Lost"` when it differs; on an unresolved market it is `"Pending"`
regardless of the odds. -/
theorem c4_outcome_state (c : ChainState) (t : Nat) :
    (Attr.mk "Result"
        (resultAttributeValue c.isResolved c.winningOptionIndex (c.tokenOption t))
        ∈ (renderMetadata c t).attributes) ∧
    (c.isResolved = true →
      ((resultAttributeValue c.isResolved c.winningOptionIndex (c.tokenOption t) = "Won" ↔
          c.winningOptionIndex = c.tokenOption t) ∧
       (c.winningOptionIndex ≠ c.tokenOption t →
          resultAttributeValue c.isResolved c.winningOptionIndex (c.tokenOption t)
            = "Lost"))) ∧
    (c.isResolved = false →
      resultAttributeValue c.isResolved c.winningOptionIndex (c.tokenOption t)
        = "Pending") := by
  refine ⟨?_, fun h => ⟨?_, fun hne => ?_⟩, fun h => ?_⟩
  · simp [renderMetadata]
  · by_cases hw : c.winningOptionIndex = c.tokenOption t <;>
      simp [resultAttributeValue, h, hw]
  · simp [resultAttributeValue, h, hne]
  · simp [resultAttributeValue, h]

/-- C4 witness: the outcome attribute evaluated on the resolved scenario
market (winning index 1, position backing option 1) and on the
unresolved scenario market. -/
theorem c4_outcome_state_witness :
    (Attr.mk "Result"
        (resultAttributeValue scenarioResolved.isResolved
          scenarioResolved.winningOptionIndex (scenarioResolved.tokenOption 0))
        ∈ (renderMetadata scenarioResolved 0).attributes) ∧
    (resultAttributeValue scenarioResolved.isResolved
        scenarioResolved.winningOptionIndex (scenarioResolved.tokenOption 0) = "Won" ↔
      scenarioResolved.winningOptionIndex = scenarioResolved.tokenOption 0) ∧
    resultAttributeValue scenario70.isResolved scenario70.winningOptionIndex
      (scenario70.tokenOption 0) = "Pending" :=
  ⟨(c4_outcome_state scenarioResolved 0).1,
   ((c4_outcome_state scenarioResolved 0).2.1 rfl).1,
   (c4_outcome_state scenario70 0).2.2 rfl⟩

/-- C5: on a market with a positive total pool, the displayed odds come
from the pool of the option the position itself backs, as read through
`tokenOption`: a position backing option 0 sees the option 0 pool
fraction and a position backing any other index sees the option 1 pool
fraction.  On the scenario market (pools 30 and 70 of a 100 total,
unresolved) a position backing option 1 displays `70.00%` and the
`slight_advantage` tier. -/
theorem c5_own_option (c : ChainState) (t : Nat) (h : 0 < c.totalPool) :
    (c.tokenOption t = 0 →
      computeOdds c (c.tokenOption t) = c.option0Pool * 100 / c.totalPool) ∧
    (c.tokenOption t ≠ 0 →
      computeOdds c (c.tokenOption t) = c.option1Pool * 100 / c.totalPool) ∧
    (renderMetadata scenario70 7).attributes
      = [⟨"Your Option Odds", "70.00%"⟩, ⟨"Result", "Pending"⟩] ∧
    unresolvedImageTier (computeOdds scenario70 (scenario70.tokenOption 7))
      = .slight_advantage := by
  refine ⟨fun h0 => ?_, fun h0 => ?_, ?_, ?_⟩
  · simp [computeOdds, userOptionPool, h, h0]
  · simp [computeOdds, userOptionPool, h, h0]
  · decide
  · decide

/-- C5 witness: the own-option odds equation instantiated on the
scenario market at token 7, whose position backs option 1. -/
theorem c5_own_option_witness :
    0 < scenario70.totalPool ∧
    computeOdds scenario70 (scenario70.tokenOption 7)
      = scenario70.option1Pool * 100 / scenario70.totalPool :=
  ⟨by decide, (c5_own_option scenario70 7 (by decide)).2.1 (by decide)⟩

/-- C6: when the total pool is zero the displayed percentage is exactly
`50.00%` regardless of every other input; when it is positive (and the
own-option pool does not exceed it, the regime where the `Number`
conversion of the BigInt quotient in the source is exact) the displayed
percentage is the truncated integer quotient `ownPool * 100 / totalPool`
rendered with two zero fractional digits — the ratio is computed in
exact integer arithmetic, never in floating point on the raw stakes. -/
theorem c6_display_percentage (c : ChainState) (t : Nat) :
    (c.totalPool = 0 →
      Attr.mk "Your Option Odds" "50.00%" ∈ (renderMetadata c t).attributes) ∧
    (0 < c.totalPool → userOptionPool c (c.tokenOption t) ≤ c.totalPool →
      Attr.mk "Your Option Odds"
          (toFixed2 (userOptionPool c (c.tokenOption t) * 100 / c.totalPool) ++ "%")
        ∈ (renderMetadata c t).attributes) := by
  constructor
  · intro h0
    have hodds : computeOdds c (c.tokenOption t) = 50 := by
      simp [computeOdds, h0]
    have hstr : toFixed2 50 ++ "%" = "50.00%" := by decide
    simp [renderMetadata, hodds, hstr]
  · intro h0 hle
    have hodds : computeOdds c (c.tokenOption t)
        = userOptionPool c (c.tokenOption t) * 100 / c.totalPool := by
      simp [computeOdds, h0]
    simp [renderMetadata, hodds]

/-- C6 witness: the displayed percentage on the scenario market (70 of
100, giving `70.00%`) and on the empty-pool market (giving `50.00%`). -/
theorem c6_display_percentage_witness :
    (0 < scenario70.totalPool ∧
      Attr.mk "Your Option Odds"
          (toFixed2 (userOptionPool scenario70 (scenario70.tokenOption 7) * 100 /
            scenario70.totalPool) ++ "%")
        ∈ (renderMetadata scenario70 7).attributes) ∧
    Attr.mk "Your Option Odds" "50.00%" ∈ (renderMetadata scenarioEmpty 1).attributes :=
  ⟨⟨by decide, (c6_display_percentage scenario70 7).2 (by decide) (by decide)⟩,
   (c6_display_percentage scenarioEmpty 1).1 rfl⟩

end DBet
